import Mathlib

/-!
Verification development for the RAMCloud log-structured storage engine's
cleaner subsystem: a shallow embedding of `SegmentIterator.cc` and of the
cleaner helpers declared in `LogCleaner.h`, with theorems settling the
specified behaviour of segment iteration, cost-benefit segment selection,
timestamp sorting and entry relocation.

Machine addresses (`uintptr_t`) are idealized as `Nat`; pointer reads are
modelled by total functions on addresses, with the null pointer at address
`0`.  `uintptr_t` subtraction in `getOffset` is modelled on `Int` (no
address in any scenario considered approaches `2^64`, so wraparound never
matters for the statements proved here).  C++ exceptions (`throw 0`) are
modelled with `Except Unit`.
-/

namespace RAMCloud

/-- Log entry types (`LogTypes.h` is not in the repository snapshot; the
type set is the one named by the spec: `SEGHEADER`, `SEGFOOTER`, `OBJECT`,
`TOMBSTONE`, `INVALID`). -/
inductive LogEntryType where
  | SEGHEADER
  | SEGFOOTER
  | OBJECT
  | TOMBSTONE
  | INVALID
deriving DecidableEq, Repr

/-- The fixed-size `SegmentEntry` header preceding every entry's payload,
as read through a `const SegmentEntry *`: the two fields the iterator
consults are `type` and `length`. -/
structure SegmentEntry where
  type : LogEntryType
  length : Nat
deriving DecidableEq, Repr

/-- The `SegmentHeader` payload of the initial `SEGHEADER` entry. -/
structure SegmentHeader where
  segmentId : Nat
  segmentCapacity : Nat
deriving DecidableEq, Repr

/-- Modelled from the spec: `Segment.h` is not in the repository snapshot.
Spec section 6 fixes the on-wire `SegmentEntry` layout as
`type: u8, reserved: u8, length: u32, checksum: u32`, so
`sizeof(SegmentEntry) = 10`. -/
def sizeofSegmentEntry : Nat := 10

/-- Modelled from the spec: `Segment.h` is not in the repository snapshot.
Spec section 6 fixes the `SegmentHeader` layout as
`segmentId: u64, segmentCapacity: u64`, so `sizeof(SegmentHeader) = 16`. -/
def sizeofSegmentHeader : Nat := 16

/-- The segment backing memory, as the iterator reads it: a `SegmentEntry`
struct read at an absolute address, and a `SegmentHeader` struct read at an
absolute address.  Reads are total (reading through an invalid pointer
yields an unspecified but fixed value, as a shallow model of the raw
memory access). -/
structure Memory where
  entryAt : Nat → SegmentEntry
  headerAt : Nat → SegmentHeader

/-- The address a possibly-null entry pointer stands for (`NULL` is
address `0`). -/
def entryAddr : Option Nat → Nat
  | none => 0
  | some a => a

/-- The `SegmentIterator` object state: `baseAddress`, `segmentCapacity`,
`id`, the cached `type`, `length` and `blobPtr` of the current entry, the
`sawFooter` flag, and the `firstEntry` / `currentEntry` cursors
(`none` = `NULL`). -/
structure SegmentIterator where
  baseAddress : Nat
  segmentCapacity : Nat
  id : Int
  type : LogEntryType
  length : Nat
  blobPtr : Option Nat
  sawFooter : Bool
  firstEntry : Option Nat
  currentEntry : Option Nat
deriving DecidableEq, Repr

/-- `SegmentIterator::isEntryValid`: the entry must not underrun the
buffer (`entryStart < baseAddress` is an internal error, `throw 0`) and
must not overrun it (`entryLastByte > lastByte` returns `false`).
In the C code the dereference `entry->length` happens before the underrun
check; the model's total read makes the two orders indistinguishable. -/
def isEntryValid (mem : Memory) (baseAddress segmentCapacity entry : Nat) :
    Except Unit Bool :=
  let lastByte := baseAddress + segmentCapacity - 1
  let entryStart := entry
  let entryLastByte := entryStart + (mem.entryAt entry).length + sizeofSegmentEntry - 1
  if entryStart < baseAddress then
    Except.error ()
  else if entryLastByte > lastByte then
    Except.ok false
  else
    Except.ok true

/-- `SegmentIterator::CommonConstructor` together with the member-initializer
list of the two constructors: sanity checking and the first iteration's
state.  Any failed check is `throw 0`. -/
def CommonConstructor (mem : Memory) (baseAddress segmentCapacity : Nat)
    (id : Int) : Except Unit SegmentIterator :=
  if segmentCapacity < sizeofSegmentEntry + sizeofSegmentHeader then
    Except.error ()
  else if (mem.entryAt baseAddress).type ≠ LogEntryType.SEGHEADER then
    Except.error ()
  else if (mem.entryAt baseAddress).length ≠ sizeofSegmentHeader then
    Except.error ()
  else
    match isEntryValid mem baseAddress segmentCapacity baseAddress with
    | Except.error e => Except.error e
    | Except.ok false => Except.error ()
    | Except.ok true =>
      if (mem.headerAt (baseAddress + sizeofSegmentEntry)).segmentCapacity
          ≠ segmentCapacity then
        Except.error ()
      else
        Except.ok
          { baseAddress := baseAddress
            segmentCapacity := segmentCapacity
            id := id
            type := (mem.entryAt baseAddress).type
            length := (mem.entryAt baseAddress).length
            blobPtr := some (baseAddress + sizeofSegmentEntry)
            sawFooter := false
            firstEntry := some baseAddress
            currentEntry := some baseAddress }

/-- `SegmentIterator::next`: reset the cached query values (`type`,
`length`, `blobPtr`), return at once on a null cursor, latch `sawFooter`
on a `SEGFOOTER` (leaving the cursor in place), stop (cursor to `NULL`)
on an invalid next entry, else advance.  The C code first resets the three
cached fields and then conditionally overwrites them; each branch below
shows the net effect of that sequence on the iterator record.
`nextEntry = currentEntry + sizeof(SegmentEntry) + currentEntry->length`
is written out in full in the branches. -/
def next (mem : Memory) (it : SegmentIterator) : Except Unit SegmentIterator :=
  match it.currentEntry with
  | none =>
    Except.ok { it with type := LogEntryType.INVALID, length := 0, blobPtr := none }
  | some cur =>
    if (mem.entryAt cur).type = LogEntryType.SEGFOOTER then
      Except.ok { it with type := LogEntryType.INVALID, length := 0,
                          blobPtr := none, sawFooter := true }
    else
      match isEntryValid mem it.baseAddress it.segmentCapacity
          (cur + sizeofSegmentEntry + (mem.entryAt cur).length) with
      | Except.error e => Except.error e
      | Except.ok false =>
        Except.ok { it with type := LogEntryType.INVALID, length := 0,
                            blobPtr := none, currentEntry := none }
      | Except.ok true =>
        Except.ok { it with
          type := (mem.entryAt (cur + sizeofSegmentEntry + (mem.entryAt cur).length)).type
          length := (mem.entryAt (cur + sizeofSegmentEntry + (mem.entryAt cur).length)).length
          blobPtr := some (cur + sizeofSegmentEntry + (mem.entryAt cur).length
            + sizeofSegmentEntry)
          currentEntry := some (cur + sizeofSegmentEntry + (mem.entryAt cur).length) }

/-- `SegmentIterator::isDone`: `sawFooter || !isEntryValid(currentEntry)`,
with C++ short-circuit evaluation; a thrown exception from `isEntryValid`
propagates. -/
def isDone (mem : Memory) (it : SegmentIterator) : Except Unit Bool :=
  if it.sawFooter then
    Except.ok true
  else
    (isEntryValid mem it.baseAddress it.segmentCapacity
      (entryAddr it.currentEntry)).map (fun v => !v)

/-- `SegmentIterator::getType`: `throw 0` when `currentEntry == NULL`. -/
def SegmentIterator.getType (it : SegmentIterator) : Except Unit LogEntryType :=
  match it.currentEntry with
  | none => Except.error ()
  | some _ => Except.ok it.type

/-- `SegmentIterator::getLength`: `throw 0` when `currentEntry == NULL`. -/
def SegmentIterator.getLength (it : SegmentIterator) : Except Unit Nat :=
  match it.currentEntry with
  | none => Except.error ()
  | some _ => Except.ok it.length

/-- `SegmentIterator::getPointer`: `throw 0` when `currentEntry == NULL`. -/
def SegmentIterator.getPointer (it : SegmentIterator) : Except Unit (Option Nat) :=
  match it.currentEntry with
  | none => Except.error ()
  | some _ => Except.ok it.blobPtr

/-- `SegmentIterator::getOffset`: `(uintptr_t)blobPtr - (uintptr_t)baseAddress`,
modelled on `Int`; `throw 0` when `currentEntry == NULL`. -/
def SegmentIterator.getOffset (it : SegmentIterator) : Except Unit Int :=
  match it.currentEntry with
  | none => Except.error ()
  | some _ => Except.ok ((entryAddr it.blobPtr : Int) - (it.baseAddress : Int))

/-- Iterate `next` a given number of times. -/
def iterNext (mem : Memory) : Nat → SegmentIterator → Except Unit SegmentIterator
  | 0, it => Except.ok it
  | n + 1, it => (next mem it).bind (iterNext mem n)

/-- The iterator after `next()`'s reset of the cached query values, with
everything else unchanged: the state `next()` returns on a null cursor. -/
def resetOnlyState (it : SegmentIterator) : SegmentIterator :=
  ⟨it.baseAddress, it.segmentCapacity, it.id, LogEntryType.INVALID, 0, none,
   it.sawFooter, it.firstEntry, it.currentEntry⟩

/-- The iterator after `next()` hits an invalid next entry: cached query
values reset and the cursor nulled. -/
def stoppedState (it : SegmentIterator) : SegmentIterator :=
  ⟨it.baseAddress, it.segmentCapacity, it.id, LogEntryType.INVALID, 0, none,
   it.sawFooter, it.firstEntry, none⟩

/-- The iterator after `next()` observes a `SEGFOOTER`: cached query
values reset, `sawFooter` latched, cursor left in place. -/
def footerDoneState (it : SegmentIterator) : SegmentIterator :=
  ⟨it.baseAddress, it.segmentCapacity, it.id, LogEntryType.INVALID, 0, none,
   true, it.firstEntry, it.currentEntry⟩

/-- The iterator states the program can actually put a `SegmentIterator`
into: a successfully constructed iterator, or the successful result of a
`next` step from a reachable state. -/
inductive Reachable (mem : Memory) : SegmentIterator → Prop where
  | constructed (baseAddress segmentCapacity : Nat) (id : Int)
      (it : SegmentIterator) :
      CommonConstructor mem baseAddress segmentCapacity id = Except.ok it →
      Reachable mem it
  | step (it it' : SegmentIterator) :
      Reachable mem it → next mem it = Except.ok it' → Reachable mem it'

/-! ### The cleaner's live-entry records and comparators (`LogCleaner.h`) -/

/-- `LogCleaner::LiveEntry`: a reference to a live entry being cleaned with
a cache of its timestamp (`LogSegment* segment`, `uint32_t offset`,
`uint32_t timestamp`); the segment pointer is abstracted to a `Nat`
reference. -/
structure LiveEntry where
  segment : Nat
  offset : Nat
  timestamp : Nat
deriving DecidableEq, Repr

/-- Width in bytes of a data pointer (`LogSegment*`): the design targets an
LP64 platform, where pointers are 8 bytes. -/
def pointerWidth : Nat := 8

/-- Size in bytes of a struct carrying the given field widths under
`__attribute__((packed))`: no padding, fields are laid out back to back. -/
def packedSizeof (fieldWidths : List Nat) : Nat := fieldWidths.sum

/-- The field widths of `LogCleaner::LiveEntry` in declaration order:
`LogSegment* segment` (pointer), `uint32_t offset`, `uint32_t timestamp`. -/
def liveEntryFieldWidths : List Nat := [pointerWidth, 4, 4]

/-- `LogCleaner::TimestampComparer::operator()`:
`a.timestamp < b.timestamp`. -/
def TimestampComparer (a b : LiveEntry) : Bool := a.timestamp < b.timestamp

/-- Modelled from the spec: `LogCleaner.cc` (the body of
`LogCleaner::sortEntriesByTimestamp`) is not in the repository snapshot.
Spec stage S3 sorts the extracted live entries ascending by their cached
timestamp using `TimestampComparer`; a sort with strict comparator `c`
produces a sequence in which consecutive elements `a, b` satisfy
`¬ c b a`. -/
def sortEntriesByTimestamp (entries : List LiveEntry) : List LiveEntry :=
  List.insertionSort (fun a b => TimestampComparer b a = false) entries

/-- A disk segment as the cost-benefit policy sees it: its live fraction
`u` and its `creationTimestamp` (wall-time units), as rationals. -/
structure LogSegmentModel where
  liveFraction : ℚ
  creationTimestamp : ℚ
deriving DecidableEq, Repr

/-- Modelled from the spec: `LogCleaner.cc` (the body of
`LogCleaner::CostBenefitComparer::costBenefit`) is not in the repository
snapshot.  Spec section 4.6.4: `u` = live fraction,
`age = now - s.creationTimestamp`, `score = ((1 - u) * age) / (1 + u)`. -/
def costBenefit (now : ℚ) (s : LogSegmentModel) : ℚ :=
  ((1 - s.liveFraction) * (now - s.creationTimestamp)) / (1 + s.liveFraction)

/-- Modelled from the spec: `LogCleaner.cc` (the body of
`LogCleaner::CostBenefitComparer::operator()`) is not in the repository
snapshot.  Spec section 4.6.4: higher score is better, so the comparator
places `a` before `b` when `a`'s score exceeds `b`'s; `now` is captured
once at comparer construction. -/
def CostBenefitComparer (now : ℚ) (a b : LogSegmentModel) : Prop :=
  costBenefit now b < costBenefit now a

instance (now : ℚ) : DecidableRel (CostBenefitComparer now) := fun a b =>
  show Decidable (costBenefit now b < costBenefit now a) from inferInstance

/-- Modelled from the spec: `LogCleaner.cc` (the body of
`LogCleaner::sortSegmentsByCostBenefit`) is not in the repository
snapshot.  Sorting with the strict comparator produces a sequence in
which consecutive elements `a, b` satisfy `¬ comparer b a`, i.e.
`costBenefit b ≤ costBenefit a`: highest score first. -/
def sortSegmentsByCostBenefit (now : ℚ) (segments : List LogSegmentModel) :
    List LogSegmentModel :=
  List.insertionSort (fun a b => ¬ CostBenefitComparer now b a) segments

/-- Scenario C's segment S1: `u = 0.2`, age 10 at `now = 100`. -/
def cbS1 : LogSegmentModel := ⟨1/5, 90⟩

/-- Scenario C's segment S2: `u = 0.2`, age 1 at `now = 100`. -/
def cbS2 : LogSegmentModel := ⟨1/5, 99⟩

/-- Scenario C's segment S3: `u = 0.8`, age 100 at `now = 100`. -/
def cbS3 : LogSegmentModel := ⟨4/5, 0⟩

/-! ### Entry relocation (`LogCleaner::relocateEntry`) -/

/-- Modelled from the spec: `LogCleanerMetrics.h` is not in the repository
snapshot.  The per-mode metrics bag (`LogCleanerMetrics::InMemory` /
`OnDisk`): the four counters `relocateEntry` touches plus the other
per-mode tallies spec section 4.7 lists (bytes relocated, bytes freed,
segments cleaned, survivors produced, passes completed). -/
structure RelocMetrics where
  totalRelocationCallbacks : Nat
  relocationCallbackTicks : Nat
  totalRelocationAppends : Nat
  relocationAppendTicks : Nat
  totalBytesRelocated : Nat
  totalBytesFreed : Nat
  totalSegmentsCleaned : Nat
  totalSurvivorsProduced : Nat
  totalPassesCompleted : Nat
deriving DecidableEq, Repr

/-- Modelled from the spec: `LogEntryRelocator.h` is not in the repository
snapshot.  The relocator handed to the entry handler: the survivor's free
space (`none` = `NULL` survivor segment), the entry's length, the
out-of-space flag reported by `failed()`, whether an append happened, and
the cycles spent appending. -/
structure LogEntryRelocator where
  survivorSpace : Option Nat
  entryLength : Nat
  outOfSpace : Bool
  didAppend : Bool
  appendTicks : Nat
deriving DecidableEq, Repr

/-- The relocator as `relocateEntry` constructs it:
`LogEntryRelocator relocator(survivor, buffer.getTotalLength())`. -/
def LogEntryRelocator.init (survivorSpace : Option Nat) (entryLength : Nat) :
    LogEntryRelocator :=
  { survivorSpace := survivorSpace, entryLength := entryLength,
    outOfSpace := false, didAppend := false, appendTicks := 0 }

/-- Modelled from the spec: the relocator's `append` operation fails
(sets the out-of-space flag) when the survivor segment is `NULL` or has
insufficient space, and otherwise consumes the entry's length from the
survivor and records the append with its cycle count. -/
def LogEntryRelocator.append (r : LogEntryRelocator) (ticks : Nat) :
    LogEntryRelocator :=
  match r.survivorSpace with
  | none => { r with outOfSpace := true }
  | some space =>
    if space < r.entryLength then
      { r with outOfSpace := true }
    else
      { r with didAppend := true, survivorSpace := some (space - r.entryLength),
               appendTicks := r.appendTicks + ticks }

/-- `LogEntryRelocator::failed()`: whether an attempted append ran out of
space. -/
def LogEntryRelocator.failed (r : LogEntryRelocator) : Bool := r.outOfSpace

/-- `LogEntryRelocator::getAppendTicks()`. -/
def LogEntryRelocator.getAppendTicks (r : LogEntryRelocator) : Nat := r.appendTicks

/-- What the entry handler does with the relocator: spec section 4.5 gives
it exactly two choices, append the entry into the survivor or decline
(no-op, the entry is dead). -/
inductive HandlerAction where
  | decline
  | append
deriving DecidableEq, Repr

/-- The handler callback `entryHandlers.relocate(type, buffer, relocator)`
abstracted to its effect on the relocator. -/
def runHandler (action : HandlerAction) (ticks : Nat)
    (r : LogEntryRelocator) : LogEntryRelocator :=
  match action with
  | HandlerAction.decline => r
  | HandlerAction.append => r.append ticks

/-- `LogCleaner::relocateEntry` (LogCleaner.h): builds a relocator over
the survivor, counts the callback and its cycles, runs the handler, and
on `relocator.failed()` returns `false`; otherwise counts the append and
its cycles and returns `true`.  `survivorSpace` is the survivor segment's
free space (`none` = `NULL` survivor), `bufferLength` is
`buffer.getTotalLength()`, and `callbackTicks` / `appendCycles` are the
cycle counts the two tick counters observe. -/
def relocateEntry (action : HandlerAction) (survivorSpace : Option Nat)
    (bufferLength callbackTicks appendCycles : Nat) (m : RelocMetrics) :
    Bool × RelocMetrics :=
  let relocator := LogEntryRelocator.init survivorSpace bufferLength
  let m1 := { m with totalRelocationCallbacks := m.totalRelocationCallbacks + 1,
                     relocationCallbackTicks := m.relocationCallbackTicks + callbackTicks }
  let relocator1 := runHandler action appendCycles relocator
  if relocator1.failed then
    (false, m1)
  else
    (true, { m1 with
      totalRelocationAppends := m1.totalRelocationAppends + 1
      relocationAppendTicks := m1.relocationAppendTicks + relocator1.getAppendTicks })

/-! ### Concrete segment fixtures -/

/-- A 40-byte segment buffer at base address 100 whose first entry is a
valid `SEGHEADER` (length 16) and whose second entry, at address 126,
declares length 50 and so overruns the buffer (entry last byte 185 > 139). -/
def mem1 : Memory where
  entryAt := fun a =>
    if a = 100 then ⟨LogEntryType.SEGHEADER, 16⟩
    else if a = 126 then ⟨LogEntryType.OBJECT, 50⟩
    else ⟨LogEntryType.INVALID, 0⟩
  headerAt := fun _ => ⟨7, 40⟩

/-- A 40-byte segment buffer at base address 100 whose first entry is a
valid `SEGHEADER` (length 16) followed by a `SEGFOOTER` entry at address
126 that exactly fills the buffer (entry last byte 139 = 139). -/
def mem2 : Memory where
  entryAt := fun a =>
    if a = 100 then ⟨LogEntryType.SEGHEADER, 16⟩
    else if a = 126 then ⟨LogEntryType.SEGFOOTER, 4⟩
    else ⟨LogEntryType.INVALID, 0⟩
  headerAt := fun _ => ⟨7, 40⟩

/-- The iterator state right after construction over `mem1` or `mem2`
(both have the same header entry): cursor on the `SEGHEADER` at 100. -/
def itHdr : SegmentIterator :=
  ⟨100, 40, -1, LogEntryType.SEGHEADER, 16, some 110, false, some 100, some 100⟩

/-- The iterator state after `next()` hits the invalid entry of `mem1`:
cached values reset and the cursor nulled, `sawFooter` still false. -/
def itNullCursor : SegmentIterator :=
  ⟨100, 40, -1, LogEntryType.INVALID, 0, none, false, some 100, none⟩

/-- The iterator state after `next()` advances to the `SEGFOOTER` of
`mem2` at address 126. -/
def itAtFooter : SegmentIterator :=
  ⟨100, 40, -1, LogEntryType.SEGFOOTER, 4, some 136, false, some 100, some 126⟩

/-- The done state after `next()` observes the `SEGFOOTER` of `mem2`:
`sawFooter` latched, cached values reset, cursor still on the footer. -/
def itFooterDone : SegmentIterator :=
  ⟨100, 40, -1, LogEntryType.INVALID, 0, none, true, some 100, some 126⟩

instance : IsTotal LiveEntry (fun a b => TimestampComparer b a = false) := by
  constructor
  intro a b
  simp only [TimestampComparer, decide_eq_false_iff_not, not_lt]
  omega

instance : IsTrans LiveEntry (fun a b => TimestampComparer b a = false) := by
  constructor
  intro a b c h1 h2
  simp only [TimestampComparer, decide_eq_false_iff_not, not_lt] at *
  omega

instance (now : ℚ) :
    IsTotal LogSegmentModel (fun a b => ¬ CostBenefitComparer now b a) := by
  constructor
  intro a b
  simp only [CostBenefitComparer, not_lt]
  exact (le_total (costBenefit now a) (costBenefit now b)).symm

instance (now : ℚ) :
    IsTrans LogSegmentModel (fun a b => ¬ CostBenefitComparer now b a) := by
  constructor
  intro a b c h1 h2
  simp only [CostBenefitComparer, not_lt] at *
  exact le_trans h2 h1

/-! ### Helper lemmas -/

/-- Once `next` maps a state to itself, any number of further `next` calls
leaves it there. -/
theorem iterNext_fixpoint (mem : Memory) (it : SegmentIterator)
    (h : next mem it = Except.ok it) :
    ∀ n, iterNext mem n it = Except.ok it := by
  intro n
  induction n with
  | zero => rfl
  | succ k ih =>
    show (next mem it).bind (iterNext mem k) = Except.ok it
    rw [h]
    exact ih

/-- `next()` on a null cursor only resets the cached query values. -/
theorem next_eq_of_cursor_none (mem : Memory) (it : SegmentIterator)
    (h : it.currentEntry = none) :
    next mem it = Except.ok (resetOnlyState it) := by
  unfold next
  rw [h]
  simp [resetOnlyState, h]

/-- `next()` on a cursor at a `SEGFOOTER` entry latches `sawFooter` and
leaves the cursor in place. -/
theorem next_eq_of_footer (mem : Memory) (it : SegmentIterator) (a : Nat)
    (h : it.currentEntry = some a)
    (hf : (mem.entryAt a).type = LogEntryType.SEGFOOTER) :
    next mem it = Except.ok (footerDoneState it) := by
  unfold next
  rw [h]
  simp [hf, footerDoneState, h]

/-- `next()` on a cursor whose successor entry is invalid nulls the
cursor and stops cleanly. -/
theorem next_eq_of_invalid (mem : Memory) (it : SegmentIterator) (a : Nat)
    (h : it.currentEntry = some a)
    (hnf : (mem.entryAt a).type ≠ LogEntryType.SEGFOOTER)
    (hinv : isEntryValid mem it.baseAddress it.segmentCapacity
      (a + sizeofSegmentEntry + (mem.entryAt a).length) = Except.ok false) :
    next mem it = Except.ok (stoppedState it) := by
  unfold next
  rw [h]
  simp [hnf, hinv, stoppedState, h]

/-- Invariants of every reachable iterator state: the cursor, when
non-null, is at or above the base address and points at a validated
entry; `sawFooter` is only ever latched with the cursor left on a
`SEGFOOTER` entry; and while no footer has been seen the cached `type`,
`length` and `blobPtr` mirror the entry under the cursor. -/
theorem reachable_invariants (mem : Memory) (it : SegmentIterator)
    (h : Reachable mem it) :
    (∀ a, it.currentEntry = some a →
      it.baseAddress ≤ a ∧
      isEntryValid mem it.baseAddress it.segmentCapacity a = Except.ok true) ∧
    (it.sawFooter = true →
      ∃ a, it.currentEntry = some a ∧
        (mem.entryAt a).type = LogEntryType.SEGFOOTER) ∧
    (it.sawFooter = false →
      ∀ a, it.currentEntry = some a →
        it.type = (mem.entryAt a).type ∧ it.length = (mem.entryAt a).length ∧
        it.blobPtr = some (a + sizeofSegmentEntry)) := by
  induction h with
  | constructed base cap idv it0 hc =>
    unfold CommonConstructor at hc
    split at hc
    · exact absurd hc (by simp)
    split at hc
    · exact absurd hc (by simp)
    split at hc
    · exact absurd hc (by simp)
    split at hc
    · exact absurd hc (by simp)
    · exact absurd hc (by simp)
    rename_i hval
    split at hc
    · exact absurd hc (by simp)
    obtain rfl : _ = it0 := Except.ok.inj hc
    refine ⟨?_, ?_, ?_⟩
    · intro a ha
      obtain rfl : base = a := Option.some.inj ha
      exact ⟨Nat.le_refl base, hval⟩
    · intro hf
      exact absurd hf (by simp)
    · intro _ a ha
      obtain rfl : base = a := Option.some.inj ha
      exact ⟨rfl, rfl, rfl⟩
  | step it1 it2 _ hnext ih =>
    obtain ⟨inv1, inv2, inv3⟩ := ih
    unfold next at hnext
    split at hnext
    · rename_i hcur
      obtain rfl : _ = it2 := Except.ok.inj hnext
      refine ⟨?_, ?_, ?_⟩
      · intro a ha
        dsimp only at ha
        rw [hcur] at ha
        exact Option.noConfusion ha
      · intro hf
        dsimp only at hf
        obtain ⟨a, ha, _⟩ := inv2 hf
        rw [hcur] at ha
        exact Option.noConfusion ha
      · intro _ a ha
        dsimp only at ha
        rw [hcur] at ha
        exact Option.noConfusion ha
    rename_i cur hcur
    split at hnext
    · rename_i hfoot
      obtain rfl : _ = it2 := Except.ok.inj hnext
      refine ⟨?_, ?_, ?_⟩
      · intro a ha
        dsimp only at ha ⊢
        exact inv1 a ha
      · intro _
        exact ⟨cur, hcur, hfoot⟩
      · intro hf _ _
        dsimp only at hf
        exact Bool.noConfusion hf
    rename_i hfoot
    split at hnext
    · exact absurd hnext (by simp)
    · rename_i hval
      obtain rfl : _ = it2 := Except.ok.inj hnext
      refine ⟨?_, ?_, ?_⟩
      · intro a ha
        dsimp only at ha
        exact Option.noConfusion ha
      · intro hf
        dsimp only at hf
        obtain ⟨a, ha, hft⟩ := inv2 hf
        obtain rfl : cur = a := Option.some.inj (hcur.symm.trans ha)
        exact absurd hft hfoot
      · intro _ a ha
        dsimp only at ha
        exact Option.noConfusion ha
    · rename_i hval
      obtain rfl : _ = it2 := Except.ok.inj hnext
      refine ⟨?_, ?_, ?_⟩
      · intro a ha
        dsimp only at ha ⊢
        obtain rfl : _ = a := Option.some.inj ha
        obtain ⟨hb, _⟩ := inv1 cur hcur
        exact ⟨by omega, hval⟩
      · intro hf
        dsimp only at hf
        obtain ⟨a, ha, hft⟩ := inv2 hf
        obtain rfl : cur = a := Option.some.inj (hcur.symm.trans ha)
        exact absurd hft hfoot
      · intro _ a ha
        dsimp only at ha ⊢
        obtain rfl : _ = a := Option.some.inj ha
        exact ⟨rfl, rfl, rfl⟩

/-! ### The claims -/

/-- C1.  The claim says `isDone` returns `true` — returning rather than
failing — when the current entry cursor is null.  On the code this fails:
over `mem1`, construction succeeds and one `next()` hits the oversized
second entry, nulling the cursor with `sawFooter` still false; `isDone`
then calls `isEntryValid(NULL)`, which dereferences the null cursor and
raises the internal error instead of returning `true`. -/
theorem C1_isDone_faults_on_null_cursor :
    CommonConstructor mem1 100 40 (-1) = Except.ok itHdr ∧
    next mem1 itHdr = Except.ok itNullCursor ∧
    itNullCursor.sawFooter = false ∧
    itNullCursor.currentEntry = none ∧
    isDone mem1 itNullCursor = Except.error () :=
  ⟨rfl, rfl, rfl, rfl, rfl⟩

/-- C3.  Constructing a segment iterator fails with the hard format error
(`throw 0`) exactly when the buffer is shorter than
`sizeof(SegmentEntry) + sizeof(SegmentHeader)`, or the first entry's type
is not `SEGHEADER`, or its length is not `sizeof(SegmentHeader)`, or the
first entry does not fit within the buffer, or the embedded
`SegmentHeader.segmentCapacity` differs from the buffer length; when none
of these hold, construction succeeds. -/
theorem C3_construction_error_iff (mem : Memory) (base cap : Nat) (idv : Int) :
    (CommonConstructor mem base cap idv = Except.error () ↔
      (cap < sizeofSegmentEntry + sizeofSegmentHeader ∨
       (mem.entryAt base).type ≠ LogEntryType.SEGHEADER ∨
       (mem.entryAt base).length ≠ sizeofSegmentHeader ∨
       base + (mem.entryAt base).length + sizeofSegmentEntry - 1 >
         base + cap - 1 ∨
       (mem.headerAt (base + sizeofSegmentEntry)).segmentCapacity ≠ cap)) ∧
    ((∃ it, CommonConstructor mem base cap idv = Except.ok it) ↔
      ¬ (cap < sizeofSegmentEntry + sizeofSegmentHeader ∨
         (mem.entryAt base).type ≠ LogEntryType.SEGHEADER ∨
         (mem.entryAt base).length ≠ sizeofSegmentHeader ∨
         base + (mem.entryAt base).length + sizeofSegmentEntry - 1 >
           base + cap - 1 ∨
         (mem.headerAt (base + sizeofSegmentEntry)).segmentCapacity ≠ cap)) := by
  have hval : isEntryValid mem base cap base =
      if base + (mem.entryAt base).length + sizeofSegmentEntry - 1 >
          base + cap - 1 then Except.ok false else Except.ok true := by
    unfold isEntryValid
    rw [if_neg (lt_irrefl base)]
  by_cases h1 : cap < sizeofSegmentEntry + sizeofSegmentHeader
  · constructor <;> simp [CommonConstructor, h1]
  by_cases h2 : (mem.entryAt base).type = LogEntryType.SEGHEADER
  · by_cases h3 : (mem.entryAt base).length = sizeofSegmentHeader
    · by_cases h4 : base + cap - 1 <
        base + sizeofSegmentHeader + sizeofSegmentEntry - 1
      · constructor <;> simp [CommonConstructor, hval, h1, h2, h3, h4]
      · by_cases h5 :
          (mem.headerAt (base + sizeofSegmentEntry)).segmentCapacity = cap
        · constructor <;> simp [CommonConstructor, hval, h1, h2, h3, h4, h5]
        · constructor <;> simp [CommonConstructor, hval, h1, h2, h3, h4, h5]
    · constructor <;> simp [CommonConstructor, hval, h1, h2, h3]
  · constructor <;> simp [CommonConstructor, h1, h2]

/-- C4.  An entry reached during iteration is treated as valid iff its
start is at or above the buffer start — a violation of that first
condition is the fatal internal error (`throw 0`), not a clean stop — and
its last byte `entry_start + length + header_size - 1` does not pass the
buffer's last byte; when the next entry is invalid, `next()` terminates
cleanly (no error), nulls the cursor so the previous entry is the last
one yielded, and every further `next()` yields no entry. -/
theorem C4_entry_validity_and_clean_termination
    (mem : Memory) (it : SegmentIterator) (cur : Nat)
    (hcur : it.currentEntry = some cur)
    (hnf : (mem.entryAt cur).type ≠ LogEntryType.SEGFOOTER)
    (hinv : isEntryValid mem it.baseAddress it.segmentCapacity
      (cur + sizeofSegmentEntry + (mem.entryAt cur).length) = Except.ok false) :
    (∀ e, (isEntryValid mem it.baseAddress it.segmentCapacity e =
      Except.error () ↔ e < it.baseAddress)) ∧
    (∀ e, it.baseAddress ≤ e →
      (isEntryValid mem it.baseAddress it.segmentCapacity e = Except.ok true ↔
        e + (mem.entryAt e).length + sizeofSegmentEntry - 1 ≤
          it.baseAddress + it.segmentCapacity - 1)) ∧
    (∃ it', next mem it = Except.ok it' ∧ it'.currentEntry = none ∧
      it'.sawFooter = it.sawFooter ∧ ∀ n, iterNext mem n it' = Except.ok it') := by
  refine ⟨?_, ?_, ?_⟩
  · intro e
    unfold isEntryValid
    by_cases he : e < it.baseAddress
    · simp [he]
    · simp only [if_neg he]
      constructor
      · intro h
        split at h <;> exact Except.noConfusion h
      · intro h
        exact absurd h he
  · intro e he
    unfold isEntryValid
    rw [if_neg (not_lt.mpr he)]
    by_cases hgt : e + (mem.entryAt e).length + sizeofSegmentEntry - 1 >
        it.baseAddress + it.segmentCapacity - 1
    · simp [hgt]
      omega
    · simp [hgt]
      omega
  · refine ⟨stoppedState it, ?_, rfl, rfl, ?_⟩
    · exact next_eq_of_invalid mem it cur hcur hnf hinv
    · exact iterNext_fixpoint mem (stoppedState it)
        (next_eq_of_cursor_none mem (stoppedState it) rfl)

/-- C2's counterexample.  Over `mem2` the iterator advances to the footer
and `next()` latches `sawFooter`, so `isDone` is `true`; yet all four
queries succeed (returning the reset values) instead of failing with a
precondition violation, because the cursor is still non-null. -/
theorem C2_done_after_footer_queries_succeed :
    CommonConstructor mem2 100 40 (-1) = Except.ok itHdr ∧
    next mem2 itHdr = Except.ok itAtFooter ∧
    next mem2 itAtFooter = Except.ok itFooterDone ∧
    isDone mem2 itFooterDone = Except.ok true ∧
    itFooterDone.getType = Except.ok LogEntryType.INVALID ∧
    itFooterDone.getLength = Except.ok 0 ∧
    itFooterDone.getPointer = Except.ok none ∧
    itFooterDone.getOffset = Except.ok (-100) :=
  ⟨rfl, rfl, rfl, rfl, rfl, rfl, rfl, rfl⟩

/-- C2 (amended).  While `isDone` is false the four queries succeed and
return the current entry's type, payload length, payload pointer and
payload offset; each query fails with the precondition violation
(`throw 0`) precisely when the current entry cursor is null — so in the
done state reached after observing `SEGFOOTER`, where the cursor is still
set, the queries succeed rather than fail. -/
theorem C2_queries_iff_null_cursor (mem : Memory) (it : SegmentIterator)
    (hr : Reachable mem it) (hbase : 0 < it.baseAddress) :
    (isDone mem it = Except.ok false →
      ∃ a, it.currentEntry = some a ∧
        it.getType = Except.ok (mem.entryAt a).type ∧
        it.getLength = Except.ok (mem.entryAt a).length ∧
        it.getPointer = Except.ok (some (a + sizeofSegmentEntry)) ∧
        it.getOffset =
          Except.ok (((a + sizeofSegmentEntry : Nat) : Int) -
            (it.baseAddress : Int))) ∧
    (it.getType = Except.error () ↔ it.currentEntry = none) ∧
    (it.getLength = Except.error () ↔ it.currentEntry = none) ∧
    (it.getPointer = Except.error () ↔ it.currentEntry = none) ∧
    (it.getOffset = Except.error () ↔ it.currentEntry = none) := by
  obtain ⟨inv1, inv2, inv3⟩ := reachable_invariants mem it hr
  refine ⟨?_, ?_, ?_, ?_, ?_⟩
  · intro hdone
    unfold isDone at hdone
    by_cases hf : it.sawFooter
    · rw [if_pos hf] at hdone
      exact absurd (Except.ok.inj hdone) (by simp)
    rw [if_neg hf] at hdone
    cases hcurv : it.currentEntry with
    | none =>
      rw [hcurv] at hdone
      unfold entryAddr isEntryValid at hdone
      rw [if_pos hbase] at hdone
      exact Except.noConfusion hdone
    | some a =>
      obtain ⟨ht, hl, hb⟩ := inv3 (Bool.eq_false_iff.mpr hf) a hcurv
      refine ⟨a, rfl, ?_, ?_, ?_, ?_⟩
      · unfold SegmentIterator.getType
        rw [hcurv, ht]
      · unfold SegmentIterator.getLength
        rw [hcurv, hl]
      · unfold SegmentIterator.getPointer
        rw [hcurv, hb]
      · unfold SegmentIterator.getOffset
        rw [hcurv, hb]
        rfl
  · unfold SegmentIterator.getType
    cases it.currentEntry <;> simp
  · unfold SegmentIterator.getLength
    cases it.currentEntry <;> simp
  · unfold SegmentIterator.getPointer
    cases it.currentEntry <;> simp
  · unfold SegmentIterator.getOffset
    cases it.currentEntry <;> simp

/-- C2's witness: the amended theorem applied to the freshly constructed
iterator over `mem2`, whose base address 100 is positive and which is
reachable by construction. -/
theorem C2_queries_iff_null_cursor_witness :
    0 < itHdr.baseAddress ∧
    ((isDone mem2 itHdr = Except.ok false →
      ∃ a, itHdr.currentEntry = some a ∧
        itHdr.getType = Except.ok (mem2.entryAt a).type ∧
        itHdr.getLength = Except.ok (mem2.entryAt a).length ∧
        itHdr.getPointer = Except.ok (some (a + sizeofSegmentEntry)) ∧
        itHdr.getOffset =
          Except.ok (((a + sizeofSegmentEntry : Nat) : Int) -
            (itHdr.baseAddress : Int))) ∧
    (itHdr.getType = Except.error () ↔ itHdr.currentEntry = none) ∧
    (itHdr.getLength = Except.error () ↔ itHdr.currentEntry = none) ∧
    (itHdr.getPointer = Except.error () ↔ itHdr.currentEntry = none) ∧
    (itHdr.getOffset = Except.error () ↔ itHdr.currentEntry = none)) :=
  ⟨by decide,
   C2_queries_iff_null_cursor mem2 itHdr
     (Reachable.constructed 100 40 (-1) itHdr rfl) (by decide)⟩

/-- C4's witness: over `mem1`, the constructed iterator sits on the
`SEGHEADER` at 100, whose successor entry at 126 is invalid (it would
overrun the 40-byte buffer), so `next()` stops cleanly. -/
theorem C4_entry_validity_witness :
    itHdr.currentEntry = some 100 ∧
    (mem1.entryAt 100).type ≠ LogEntryType.SEGFOOTER ∧
    isEntryValid mem1 itHdr.baseAddress itHdr.segmentCapacity
      (100 + sizeofSegmentEntry + (mem1.entryAt 100).length) =
      Except.ok false ∧
    ((∀ e, (isEntryValid mem1 itHdr.baseAddress itHdr.segmentCapacity e =
      Except.error () ↔ e < itHdr.baseAddress)) ∧
    (∀ e, itHdr.baseAddress ≤ e →
      (isEntryValid mem1 itHdr.baseAddress itHdr.segmentCapacity e =
          Except.ok true ↔
        e + (mem1.entryAt e).length + sizeofSegmentEntry - 1 ≤
          itHdr.baseAddress + itHdr.segmentCapacity - 1)) ∧
    (∃ it', next mem1 itHdr = Except.ok it' ∧ it'.currentEntry = none ∧
      it'.sawFooter = itHdr.sawFooter ∧
      ∀ n, iterNext mem1 n it' = Except.ok it')) :=
  ⟨rfl, by decide, rfl,
   C4_entry_validity_and_clean_termination mem1 itHdr 100 rfl (by decide) rfl⟩

/-- C9.  From a reachable done state — footer observed or cursor null —
`next()` succeeds, leaves the cursor and the `sawFooter` flag exactly as
they were, and reaches a state that is a true fixed point of `next()`:
any number of further calls returns that same state and never yields a
further entry. -/
theorem C9_next_idempotent_in_done_state (mem : Memory) (it : SegmentIterator)
    (hr : Reachable mem it)
    (hdone : it.sawFooter = true ∨ it.currentEntry = none) :
    ∃ it', next mem it = Except.ok it' ∧
      it'.currentEntry = it.currentEntry ∧
      it'.sawFooter = it.sawFooter ∧
      next mem it' = Except.ok it' ∧
      ∀ n, iterNext mem n it' = Except.ok it' := by
  obtain ⟨inv1, inv2, inv3⟩ := reachable_invariants mem it hr
  rcases hdone with hf | hc
  · obtain ⟨a, hcur, hfoot⟩ := inv2 hf
    have hstep : next mem it = Except.ok (footerDoneState it) :=
      next_eq_of_footer mem it a hcur hfoot
    have hfix : next mem (footerDoneState it) =
        Except.ok (footerDoneState it) :=
      next_eq_of_footer mem (footerDoneState it) a hcur hfoot
    exact ⟨footerDoneState it, hstep, rfl, hf.symm, hfix,
      iterNext_fixpoint mem (footerDoneState it) hfix⟩
  · have hstep : next mem it = Except.ok (resetOnlyState it) :=
      next_eq_of_cursor_none mem it hc
    have hfix : next mem (resetOnlyState it) =
        Except.ok (resetOnlyState it) :=
      next_eq_of_cursor_none mem (resetOnlyState it) hc
    exact ⟨resetOnlyState it, hstep, rfl, rfl, hfix,
      iterNext_fixpoint mem (resetOnlyState it) hfix⟩

/-- C9's witness: the done state reached over `mem2` after observing the
footer (reachable in two `next` steps from construction) is a fixed point
of `next()`. -/
theorem C9_next_idempotent_witness :
    (itFooterDone.sawFooter = true ∨ itFooterDone.currentEntry = none) ∧
    (∃ it', next mem2 itFooterDone = Except.ok it' ∧
      it'.currentEntry = itFooterDone.currentEntry ∧
      it'.sawFooter = itFooterDone.sawFooter ∧
      next mem2 it' = Except.ok it' ∧
      ∀ n, iterNext mem2 n it' = Except.ok it') :=
  ⟨Or.inl rfl,
   C9_next_idempotent_in_done_state mem2 itFooterDone
     (Reachable.step itAtFooter itFooterDone
       (Reachable.step itHdr itAtFooter
         (Reachable.constructed 100 40 (-1) itHdr rfl) rfl) rfl)
     (Or.inl rfl)⟩

/-- C5.  The cost-benefit comparator orders segments by the score
`((1 - u) * age) / (1 + u)`, higher scores first: comparing is exactly
comparing scores, the sorted candidate list is a permutation whose scores
are non-increasing, and on scenario C's segments (u = 0.2, age 10;
u = 0.2, age 1; u = 0.8, age 100 at `now = 100`) the scores are 20/3, 2/3
and 100/9, giving selection order S3, S1, S2. -/
theorem C5_cost_benefit_ordering (now : ℚ) (l : List LogSegmentModel) :
    (∀ a b, CostBenefitComparer now a b ↔
      costBenefit now b < costBenefit now a) ∧
    (sortSegmentsByCostBenefit now l).Perm l ∧
    List.Pairwise (fun a b => costBenefit now b ≤ costBenefit now a)
      (sortSegmentsByCostBenefit now l) ∧
    costBenefit 100 cbS1 = 20 / 3 ∧
    costBenefit 100 cbS2 = 2 / 3 ∧
    costBenefit 100 cbS3 = 100 / 9 ∧
    sortSegmentsByCostBenefit 100 [cbS1, cbS2, cbS3] = [cbS3, cbS1, cbS2] := by
  refine ⟨fun a b => Iff.rfl, List.perm_insertionSort _ l, ?_, ?_, ?_, ?_, ?_⟩
  · exact (List.sorted_insertionSort
      (fun a b => ¬ CostBenefitComparer now b a) l).imp (fun h => not_lt.mp h)
  · norm_num [costBenefit, cbS1]
  · norm_num [costBenefit, cbS2]
  · norm_num [costBenefit, cbS3]
  · norm_num [sortSegmentsByCostBenefit, List.insertionSort, List.orderedInsert,
      CostBenefitComparer, costBenefit, cbS1, cbS2, cbS3]

/-- C6.  Sorting a vector of extracted live entries with the cleaner's
timestamp comparator yields a permutation whose cached timestamps are
non-decreasing — equivalently, no entry with a strictly larger timestamp
ever precedes one with a strictly smaller timestamp — as on scenario B's
entries with timestamps 202, 100, 201, 101. -/
theorem C6_timestamp_sort_ascending (l : List LiveEntry) :
    (sortEntriesByTimestamp l).Perm l ∧
    List.Pairwise (fun a b => a.timestamp ≤ b.timestamp)
      (sortEntriesByTimestamp l) ∧
    List.Pairwise (fun a b => ¬ b.timestamp < a.timestamp)
      (sortEntriesByTimestamp l) ∧
    sortEntriesByTimestamp
        [⟨1, 0, 202⟩, ⟨2, 0, 100⟩, ⟨1, 4, 201⟩, ⟨2, 8, 101⟩] =
      [⟨2, 0, 100⟩, ⟨2, 8, 101⟩, ⟨1, 4, 201⟩, ⟨1, 0, 202⟩] := by
  refine ⟨List.perm_insertionSort _ l, ?_, ?_, by decide⟩
  · refine (List.sorted_insertionSort _ l).imp (fun h => ?_)
    simp only [TimestampComparer, decide_eq_false_iff_not, not_lt] at h
    exact h
  · refine (List.sorted_insertionSort _ l).imp (fun h => ?_)
    simp only [TimestampComparer, decide_eq_false_iff_not] at h
    exact h

/-- C7.  `relocateEntry` returns `false` exactly when the relocator
reports `failed()` after the handler callback — that is, exactly when the
handler attempted an append and the survivor segment was null or had
insufficient space for the entry — and returns `true` in every other
case, in particular whenever the handler declined to relocate the
entry. -/
theorem C7_relocateEntry_false_iff_relocator_failed
    (action : HandlerAction) (survivorSpace : Option Nat)
    (bufferLength callbackTicks appendCycles : Nat) (m : RelocMetrics) :
    ((relocateEntry action survivorSpace bufferLength callbackTicks
        appendCycles m).1 = false ↔
      (runHandler action appendCycles
        (LogEntryRelocator.init survivorSpace bufferLength)).failed = true) ∧
    ((relocateEntry action survivorSpace bufferLength callbackTicks
        appendCycles m).1 = false ↔
      (action = HandlerAction.append ∧
        (survivorSpace = none ∨
          ∃ s, survivorSpace = some s ∧ s < bufferLength))) ∧
    (action = HandlerAction.decline →
      (relocateEntry action survivorSpace bufferLength callbackTicks
        appendCycles m).1 = true) := by
  cases action <;> cases survivorSpace <;>
    simp only [relocateEntry, runHandler, LogEntryRelocator.init,
      LogEntryRelocator.append, LogEntryRelocator.failed] <;>
    split_ifs <;> simp_all

/-- C8.  The `LiveEntry` record — a segment pointer, a 32-bit offset and
a 32-bit timestamp, packed — occupies exactly 16 bytes, so the
`static_assert(sizeof(LiveEntry) == 16)` in its constructor holds. -/
theorem C8_liveEntry_packed_sizeof : packedSizeof liveEntryFieldWidths = 16 :=
  rfl

/-- C10.  Every `relocateEntry` call bumps the metrics bag's
`totalRelocationCallbacks` by exactly one regardless of outcome, bumps
`totalRelocationAppends` by exactly one iff it returns `true`, and leaves
every counter other than these two and the two tick counters
(`relocationCallbackTicks`, `relocationAppendTicks`) untouched. -/
theorem C10_relocateEntry_metrics_frame
    (action : HandlerAction) (survivorSpace : Option Nat)
    (bufferLength callbackTicks appendCycles : Nat) (m : RelocMetrics) :
    ((relocateEntry action survivorSpace bufferLength callbackTicks
        appendCycles m).2.totalRelocationCallbacks =
      m.totalRelocationCallbacks + 1) ∧
    ((relocateEntry action survivorSpace bufferLength callbackTicks
        appendCycles m).2.totalRelocationAppends =
      m.totalRelocationAppends +
        (if (relocateEntry action survivorSpace bufferLength callbackTicks
            appendCycles m).1 then 1 else 0)) ∧
    ((relocateEntry action survivorSpace bufferLength callbackTicks
        appendCycles m).2.totalBytesRelocated = m.totalBytesRelocated) ∧
    ((relocateEntry action survivorSpace bufferLength callbackTicks
        appendCycles m).2.totalBytesFreed = m.totalBytesFreed) ∧
    ((relocateEntry action survivorSpace bufferLength callbackTicks
        appendCycles m).2.totalSegmentsCleaned = m.totalSegmentsCleaned) ∧
    ((relocateEntry action survivorSpace bufferLength callbackTicks
        appendCycles m).2.totalSurvivorsProduced = m.totalSurvivorsProduced) ∧
    ((relocateEntry action survivorSpace bufferLength callbackTicks
        appendCycles m).2.totalPassesCompleted = m.totalPassesCompleted) := by
  cases action <;> cases survivorSpace <;>
    simp only [relocateEntry, runHandler, LogEntryRelocator.init,
      LogEntryRelocator.append, LogEntryRelocator.failed,
      LogEntryRelocator.getAppendTicks] <;>
    split_ifs <;> simp_all

end RAMCloud
